import Mathlib

/-!
# Verification of `@volverjs/data` (URL builder, fingerprint hash, read-deduplication registry)

Shallow embedding of the TypeScript sources:
* `src/UrlBuilder.ts` — URL template rendering and path-parameter validation;
* `Hash` (`cyrb53`) — the 53-bit fingerprint hash;
* `RepositoryHttp` — the read-deduplication registry with reference-counted
  cancellation, and the envelope/settlement logic of `read`/`create`/`update`/`remove`.

JavaScript machine integers are modelled as `Nat` with explicit `% 2^32`
reductions where the source relies on 32-bit wrap-around (`Math.imul`, `^`,
`>>>`); JS objects used as maps are modelled as association lists; promises are
modelled by an explicit settlement state on an operational repository state, with
one Lean function per source event handler (read call, subscriber abort,
shared-promise settlement).
-/

/-! ## JS values and parameter maps (src/UrlBuilder.ts context)

A `JSValue` is a JavaScript value as far as `UrlBuilder` can observe it:
`typeof` and, for the allowed scalar types, its string form.  Arrays and plain
objects carry their `typeof` result `"object"` (their contents are never
inspected by path rendering); `null` also has `typeof` `"object"`. -/

inductive JSValue where
  | bool (b : Bool)
  | str (s : String)
  | num (n : Int)
  | arr
  | obj
  | sym
  | null
  | undef
  deriving DecidableEq, Repr

/-- Computes `typeof v` as JavaScript does (`typeof null` is `"object"`). -/
def JSValue.typeofJs : JSValue → String
  | .bool _ => "boolean"
  | .str _ => "string"
  | .num _ => "number"
  | .arr => "object"
  | .obj => "object"
  | .sym => "symbol"
  | .null => "object"
  | .undef => "undefined"

/-- String coercion of the allowed scalar path values (`String(v)`). -/
def JSValue.toStringJs : JSValue → String
  | .bool true => "true"
  | .bool false => "false"
  | .str s => s
  | .num n => toString n
  | _ => ""

/-- A `ParamMap` as observed by the URL builder: an insertion-ordered JS object.
Lookup returns the first binding of a key (keys are unique in a JS object). -/
abbrev ParamMap := List (String × JSValue)

/-- Equality of `Except` results is decidable (used to evaluate the theorems
on concrete inputs). -/
instance {ε α : Type} [DecidableEq ε] [DecidableEq α] :
    DecidableEq (Except ε α) :=
  fun a b =>
    match a, b with
    | .error x, .error y =>
      if h : x = y then .isTrue (by rw [h]) else .isFalse (by simp [h])
    | .error _, .ok _ => .isFalse (by simp)
    | .ok _, .error _ => .isFalse (by simp)
    | .ok x, .ok y =>
      if h : x = y then .isTrue (by rw [h]) else .isFalse (by simp [h])

/-- Whether `s.trim()` yields the empty string — the string is empty or
whitespace-only (modelled at
the character-list level so that it evaluates by kernel reduction; the JS
whitespace set is approximated by `Char.isWhitespace`). -/
def trimIsEmpty (s : String) : Bool := s.toList.all Char.isWhitespace

/-- JS `s.endsWith(t)`, modelled at the character-list level. -/
def strEndsWith (s suffix : String) : Bool := suffix.toList.isSuffixOf s.toList

/-- JS `s.startsWith(t)`, modelled at the character-list level. -/
def strStartsWith (s pre : String) : Bool := pre.toList.isPrefixOf s.toList

/-- JS `s.slice(0, -n)`, modelled at the character-list level. -/
def strDropRight (s : String) (n : Nat) : String :=
  String.mk (s.toList.take (s.toList.length - n))

/-- JS `s.slice(n)`, modelled at the character-list level. -/
def strDrop (s : String) (n : Nat) : String := String.mk (s.toList.drop n)

/-- Property read and `Object.prototype.hasOwnProperty.call(params, key)`. -/
def ParamMap.getJs (params : ParamMap) (key : String) : Option JSValue :=
  match params with
  | [] => none
  | (k, v) :: rest => if k = key then some v else ParamMap.getJs rest key

/-- JS `delete params[key]` (removes every binding of the key). -/
def ParamMap.deleteJs (params : ParamMap) (key : String) : ParamMap :=
  params.filter (fun kv => kv.1 ≠ key)

/-! ## `encodeURIComponent`

Modelled over Unicode code points: characters in the JS unreserved set are kept,
everything else is percent-encoded from its UTF-8 bytes with uppercase hex. -/

def hexDigit (n : Nat) : Char :=
  if n < 10 then Char.ofNat (48 + n) else Char.ofNat (55 + n)

def percentByte (b : Nat) : String :=
  String.mk ['%', hexDigit (b / 16), hexDigit (b % 16)]

/-- The characters `encodeURIComponent` leaves unescaped. -/
def uriUnreserved (c : Char) : Bool :=
  c.isAlphanum || c = '-' || c = '_' || c = '.' || c = '!' ||
    c = '~' || c = '*' || c = '\x27' || c = '(' || c = ')'

def utf8Bytes (c : Char) : List Nat :=
  let n := c.toNat
  if n < 0x80 then [n]
  else if n < 0x800 then [0xC0 + n / 0x40, 0x80 + n % 0x40]
  else if n < 0x10000 then
    [0xE0 + n / 0x1000, 0x80 + (n / 0x40) % 0x40, 0x80 + n % 0x40]
  else
    [0xF0 + n / 0x40000, 0x80 + (n / 0x1000) % 0x40,
      0x80 + (n / 0x40) % 0x40, 0x80 + n % 0x40]

def encodeURIComponentJs (s : String) : String :=
  String.join (s.toList.map fun c =>
    if uriUnreserved c then String.mk [c]
    else String.join ((utf8Bytes c).map percentByte))

namespace UrlBuilder

/-! ## `UrlBuilder.validatePathParam` (src/UrlBuilder.ts lines 81–106) -/

/-- The `allowedTypes` list of the source. -/
def allowedTypes : List String := ["boolean", "string", "number"]

/-- JS `Array.prototype.join(sep)`. -/
def joinJs (sep : String) : List String → String
  | [] => ""
  | [x] => x
  | x :: xs => x ++ sep ++ joinJs sep xs

/-- Validation result: `none` when valid, `some message` when invalid,
mirroring the `{ valid, message }` record of the source. -/
def validatePathParam (params : ParamMap) (key : String) : Option String :=
  match params.getJs key with
  | none => some ("Missing value for path parameter " ++ key ++ ".")
  | some v =>
    if ¬ (allowedTypes.contains v.typeofJs) then
      some ("Path parameter " ++ key ++ " cannot be of type " ++ v.typeofJs
        ++ ". " ++ ("Allowed types are: " ++ joinJs ", " allowedTypes ++ "."))
    else match v with
      | .str s => if trimIsEmpty s then
          some ("Path parameter " ++ key ++ " cannot be an empty string.")
        else none
      | _ => none

/-! ## `UrlBuilder.path` (src/UrlBuilder.ts lines 108–136)

The template is embedded in parsed form: the regex `/\/?:[_A-Z]\w*\??/gi`
splits the template into literal pieces and placeholder tokens
(optional leading `/`, name, optional trailing `?`); `String.replace` visits
the tokens left to right.  The replacement callback validates against the
*original* params (the argument `params`), deletes consumed keys from the
working copy `remainingParams`, and throws on an invalid required token. -/

inductive TplPiece where
  | lit (s : String)
  | tok (slash : Bool) (name : String) (optional : Bool)
  deriving DecidableEq, Repr

abbrev Template := List TplPiece

/-- One step of the replacement fold: renders a piece given the original
params, the accumulated path and the working copy of the params. -/
def pathStep (params : ParamMap) (piece : TplPiece) (acc : String × ParamMap) :
    Except String (String × ParamMap) :=
  match piece with
  | .lit s => .ok (acc.1 ++ s, acc.2)
  | .tok slash name optional =>
    match validatePathParam params name with
    | some message =>
      if optional then .ok acc
      else .error message
    | none =>
      let encoded := encodeURIComponentJs ((params.getJs name).getD .undef).toStringJs
      let rendered := if slash then "/" ++ encoded else encoded
      .ok (acc.1 ++ rendered, acc.2.deleteJs name)

/-- Source `UrlBuilder.path`: returns the rendered path and the remaining
params, or throws. -/
def path (template : Template) (params : ParamMap := []) :
    Except String (String × ParamMap) :=
  template.foldlM (fun acc piece => pathStep params piece acc) ("", params)

/-! ## `UrlBuilder.query` and `UrlBuilder.build` (src/UrlBuilder.ts lines 48–79)

`query` delegates to the external `qs.stringify` codec (out of scope for this
repository); `qsStringify` models that codec at the defaults the source
installs: `skipNulls: true`, `arrayFormat: "comma"`, `encodeValuesOnly: true`,
`format: "RFC1738"`. -/

/-- RFC1738 escaping of a value (space becomes `+`, other reserved characters
percent-encoded), as the default `format` of the codec produces. -/
def rfc1738Escape (s : String) : String :=
  String.join (s.toList.map fun c =>
    if c = ' ' then "+"
    else if uriUnreserved c then String.mk [c]
    else String.join ((utf8Bytes c).map percentByte))

/-- Models the external `qs.stringify` at the default options of the source:
`undefined`/`null` values are skipped, scalar values are rendered with values
only encoded (RFC1738: space as `+`), pairs joined with `&`.  Arrays/objects
carry no contents in this embedding and are rendered as an empty value. -/
def qsStringify (params : ParamMap) : String :=
  String.intercalate "&" (params.filterMap fun kv =>
    match kv.2 with
    | .undef => none
    | .null => none
    | v => some (kv.1 ++ "=" ++ rfc1738Escape v.toStringJs))

/-- Source `UrlBuilder.query`: empty map yields the empty string, otherwise
the codec. -/
def query (params : ParamMap) : String :=
  if params.length < 1 then "" else qsStringify params

/-- Source `UrlBuilder._join(part1, separator, part2)`. -/
def joinParts (part1 separator part2 : String) : String :=
  let p1 := if strEndsWith part1 separator
    then strDropRight part1 separator.toList.length else part1
  let p2 := if strStartsWith part2 separator
    then strDrop part2 separator.toList.length else part2
  if p1 = "" ∨ p2 = "" then p1 ++ p2 else p1 ++ separator ++ p2

/-- Keys bound to `undefined` are excluded before rendering (`cleanParams`
in `UrlBuilder.build`). -/
def cleanParams (params : ParamMap) : ParamMap :=
  params.filter (fun kv => kv.2 ≠ .undef)

/-- Source `UrlBuilder.build` (static): clean params, render the path (may throw),
serialize the remaining params, join with `?`. -/
def build (template : Template) (params : ParamMap := []) :
    Except String String := do
  let cleaned := cleanParams params
  let (renderedPath, remainingParams) ← path template cleaned
  .ok (joinParts renderedPath "?" (query remainingParams))

end UrlBuilder

/-! ## `Hash.cyrb53` (src/Hash.ts)

The hash walks the UTF-16 code units of the string.  All intermediate values are
32-bit patterns: `Math.imul` is multiplication mod `2^32`, `^` is bitwise xor
(a value `< 2^32` stays `< 2^32`), `x >>> k` is `x / 2^k` on the unsigned
pattern.  The result is `4294967296 * (2097151 & h2) + (h1 >>> 0)`. -/

namespace Hash

/-- JS `Math.imul` on unsigned 32-bit patterns. -/
def imul (a b : Nat) : Nat := (a * b) % 2 ^ 32

/-- The UTF-16 code units of a string (`charCodeAt` sequence). -/
def utf16Units (s : String) : List Nat :=
  (s.toList.map fun c =>
    let n := c.toNat
    if n < 0x10000 then [n]
    else [0xD800 + (n - 0x10000) / 0x400, 0xDC00 + (n - 0x10000) % 0x400]).flatten

/-- The per-character loop body. -/
def cyrb53Step (h : Nat × Nat) (ch : Nat) : Nat × Nat :=
  (imul (h.1 ^^^ ch) 2654435761, imul (h.2 ^^^ ch) 1597334677)

/-- Source `Hash.cyrb53` over a list of UTF-16 code units. -/
def cyrb53Units (units : List Nat) (seed : Nat := 0) : Nat :=
  let h1 := 0xdeadbeef ^^^ (seed % 2 ^ 32)
  let h2 := 0x41c6ce57 ^^^ (seed % 2 ^ 32)
  let h := units.foldl cyrb53Step (h1, h2)
  let h1 := imul (h.1 ^^^ (h.1 / 2 ^ 16)) 2246822507 ^^^
    imul (h.2 ^^^ (h.2 / 2 ^ 13)) 3266489909
  let h2 := imul (h.2 ^^^ (h.2 / 2 ^ 16)) 2246822507 ^^^
    imul (h1 ^^^ (h1 / 2 ^ 13)) 3266489909
  4294967296 * (2097151 &&& h2) + h1

/-- Source `Hash.cyrb53` on a string. -/
def cyrb53 (s : String) (seed : Nat := 0) : Nat :=
  cyrb53Units (utf16Units s) seed

end Hash

/-! ## `RepositoryHttp` read deduplication (src, RepositoryHttp class)

The registry protocol is embedded operationally.  A `RepoState` holds the
`_readPendingRequests` map (`registry`), every pending-request closure ever
created (`entries` — closures outlive their registry mapping), every subscriber
view handed out by `_cloneRepositoryHttpReadPendingRequest` (`subs`), and the
number of underlying `client.request` calls issued (`requests`).  Each source
event handler becomes one Lean function:

* `readEvent` — the body of `read` up to returning a view;
* `abortEvent` — the `abort` listener of the subscriber controller;
* `settleEvent` — the shared `responsePromise` settling, fanning out to views;
* `createEvent`/`updateEvent`/`removeEvent` — the mutation dispatch paths.

Promises are modelled by `Option` settlement states: `resolve`/`reject` on an
already settled promise is a no-op, as in JS. -/

/-- Decoded item type (the generic `Type` parameter of the repository). -/
abbrev Data := Int

/-- A raw decoded JSON body as the default response adapter observes it. -/
inductive Raw where
  | arrRaw (xs : List Data)
  | scalarRaw (x : Data)
  deriving DecidableEq, Repr

/-- Response headers, projected to the names the default metadata adapter
queries (`Headers.has`/`Headers.get` on these exact names). -/
structure RespHeaders where
  contentLanguage : Option String := none
  acceptLanguage : Option String := none
  xTotalCount : Option String := none
  deriving DecidableEq, Repr

/-- A thrown JS error: either a ky `HTTPError` or any other exception
(abort errors, adapter errors, JSON decode errors), tagged by identity. -/
inductive JsError where
  | http (id : Nat)
  | other (id : Nat)
  deriving DecidableEq, Repr

/-- Whether `error instanceof HTTPError`. -/
def JsError.isHttp : JsError → Bool
  | .http _ => true
  | .other _ => false

/-- Metadata map produced by a metadata adapter. -/
abbrev MetaMap := List (String × String)

/-- The envelope a repository promise resolves with.  Absent JS fields are
`none`/`false` (an absent `aborted` reads as falsy). -/
structure Envelope where
  ok : Bool
  aborted : Bool := false
  abortReason : Option String := none
  data : Option (List Data) := none
  item : Option Data := none
  metadata : Option MetaMap := none
  deriving DecidableEq, Repr

/-- The `{ ok: false, aborted: true, abortReason }` envelope. -/
def abortedEnvelope (reason : Option String) : Envelope :=
  { ok := false, aborted := true, abortReason := reason }

/-- The default response adapter:
`(raw) => Array.isArray(raw) ? raw : [raw]`. -/
def defaultResponseAdapter : Raw → Except JsError (List Data)
  | .arrRaw xs => .ok xs
  | .scalarRaw x => .ok [x]

/-- Source `RepositoryHttp._metadataAdapter` (default): note that each of the first
two `if` blocks *assigns* `toReturn` and only the third spreads it. -/
def defaultMetadataAdapter (response : RespHeaders) : Option MetaMap :=
  let toReturn : Option MetaMap := none
  let toReturn : Option MetaMap :=
    match response.contentLanguage with
    | some v => some [("contentLanguage", v)]
    | none => toReturn
  let toReturn : Option MetaMap :=
    match response.acceptLanguage with
    | some v => some [("acceptLanguage", v)]
    | none => toReturn
  let toReturn : Option MetaMap :=
    match response.xTotalCount with
    | some v => some (toReturn.getD [] ++ [("total", v)])
    | none => toReturn
  toReturn

/-- How the awaited `httpResponsePromise` settles, together with what
`httpResponse.json()` would yield if invoked. -/
inductive TransportResult where
  | reject (e : JsError)
  | success (ok : Bool) (headers : RespHeaders) (json : Except JsError Raw)
  deriving Repr

/-- A settled promise outcome. -/
inductive SettleResult where
  | resolve (e : Envelope)
  | reject (e : JsError)
  deriving DecidableEq, Repr

/-- The shared `try` block of `read`/`create`/`update`: await the response
(which may reject), decode the JSON body, run the response adapter, run the
metadata adapter; any exception escapes to the `catch`. -/
def envelopePipeline (respA : Raw → Except JsError (List Data))
    (metaA : RespHeaders → Except JsError (Option MetaMap))
    (tr : TransportResult) : Except JsError Envelope :=
  match tr with
  | .reject e => .error e
  | .success ok headers json => do
    let raw ← json
    let data ← respA raw
    let metadata ← metaA headers
    .ok { ok := ok, data := some data, item := data.head?,
          metadata := metadata }

/-- The `try`/`catch` of the shared `responsePromise` of `read`: on an exception,
rethrow only a non-abort `HTTPError`; any other exception resolves the aborted
envelope from the signal state. -/
def readSettle (respA : Raw → Except JsError (List Data))
    (metaA : RespHeaders → Except JsError (Option MetaMap))
    (sigAborted : Bool) (sigReason : Option String)
    (tr : TransportResult) : SettleResult :=
  match envelopePipeline respA metaA tr with
  | .ok env => .resolve env
  | .error e =>
    if !sigAborted && e.isHttp then .reject e
    else .resolve (abortedEnvelope sigReason)

/-- The `try`/`catch` of `create`/`update`: identical `try` block, but the
`catch` rethrows *every* error when the signal is not aborted. -/
def mutationSettle (respA : Raw → Except JsError (List Data))
    (metaA : RespHeaders → Except JsError (Option MetaMap))
    (sigAborted : Bool) (sigReason : Option String)
    (tr : TransportResult) : SettleResult :=
  match envelopePipeline respA metaA tr with
  | .ok env => .resolve env
  | .error e =>
    if !sigAborted then .reject e
    else .resolve (abortedEnvelope sigReason)

/-- The body of the `remove` promise: neither `json()` nor any adapter runs. -/
def removeSettle (sigAborted : Bool) (sigReason : Option String)
    (tr : TransportResult) : SettleResult :=
  match tr with
  | .reject e =>
    if !sigAborted then .reject e else .resolve (abortedEnvelope sigReason)
  | .success ok _ _ => .resolve { ok := ok }

/-! ### Association-list primitives for the registry and id-indexed maps -/

/-- First-binding lookup. -/
def lookupA {κ α : Type} [DecidableEq κ] (k : κ) : List (κ × α) → Option α
  | [] => none
  | (k', v) :: rest => if k' = k then some v else lookupA k rest

/-- Update the first binding of `k` (no-op when absent). -/
def updateA {κ α : Type} [DecidableEq κ] (k : κ) (f : α → α) :
    List (κ × α) → List (κ × α)
  | [] => []
  | (k', v) :: rest =>
    if k' = k then (k', f v) :: rest else (k', v) :: updateA k f rest

/-- JS `Map.delete(k)`. -/
def removeA {κ α : Type} [DecidableEq κ] (k : κ) (l : List (κ × α)) :
    List (κ × α) :=
  l.filter (fun kv => kv.1 ≠ k)

/-- JS `Map.set(k, v)`: lookup-equivalent representation (bind `k` to `v`,
dropping any previous binding). -/
def setA {κ α : Type} [DecidableEq κ] (k : κ) (v : α) (l : List (κ × α)) :
    List (κ × α) :=
  (k, v) :: removeA k l

/-! ### The repository state machine -/

/-- A `_readPendingRequests` map key (`string | number`). -/
inductive JsKey where
  | num (n : Int)
  | str (s : String)
  deriving DecidableEq, Repr

/-- JS truthiness of a key value (`0` and the empty string are falsy). -/
def JsKey.truthy : JsKey → Bool
  | .num n => n != 0
  | .str s => s != ""

/-- The `key` request option: omitted/auto, an explicit number or string, or a
boolean (`false` opts out of deduplication). -/
inductive OptKey where
  | auto
  | num (n : Int)
  | str (s : String)
  | bool (b : Bool)
  deriving DecidableEq, Repr

/-- One pending-request closure (`_readPendingRequests` value plus the state of
the abort controller and shared promise of the underlying operation). -/
structure Entry where
  key : JsKey
  count : Int
  opAborted : Bool := false
  opAbortReason : Option String := none
  settled : Option SettleResult := none
  deriving DecidableEq, Repr

/-- A settled subscriber-view promise: resolved with an envelope or rejected
with an error. -/
inductive SubOutcome where
  | env (e : Envelope)
  | err (e : JsError)
  deriving DecidableEq, Repr

/-- One subscriber view returned by `_cloneRepositoryHttpReadPendingRequest`:
its own controller and the settlement state of its derived promise. -/
structure Subscriber where
  entryRef : Nat
  ctrlAborted : Bool := false
  settled : Option SubOutcome := none
  deriving DecidableEq, Repr

/-- The observable state of one `RepositoryHttp` instance. -/
structure RepoState where
  registry : List (JsKey × Nat) := []
  entries : List (Nat × Entry) := []
  subs : List (Nat × Subscriber) := []
  nextEntry : Nat := 0
  nextSub : Nat := 0
  requests : Nat := 0
  deriving DecidableEq, Repr

/-- The empty state of a freshly constructed instance. -/
def RepoState.init : RepoState := {}

/-- Source `_cloneRepositoryHttpReadPendingRequest`: increment the entry refcount
and hand out a fresh subscriber view (the source casts the map lookup
non-null; a missing entry yields no view). -/
def cloneEntry (eid : Nat) (s : RepoState) : RepoState × Option Nat :=
  match lookupA eid s.entries with
  | none => (s, none)
  | some _ =>
    let sid := s.nextSub
    ({ s with
        entries := updateA eid (fun (e : Entry) => { e with count := e.count + 1 }) s.entries,
        subs := (sid, ({ entryRef := eid } : Subscriber)) :: s.subs,
        nextSub := sid + 1 }, some sid)

/-- The key actually used by `read` after the
`if (!key || typeof key === "boolean") key = hashFunction(JSON.stringify(params))`
normalization (`ps` is the serialized parameter map). -/
def effectiveKey (h : String → Nat) (ps : String) (optKey : OptKey) : JsKey :=
  match optKey with
  | .auto => .num (h ps)
  | .bool _ => .num (h ps)
  | .num n => if n = 0 then .num (h ps) else .num n
  | .str t => if t = "" then .num (h ps) else .str t

/-- The body of `read` up to returning a view.  Returns the new state and the
subscriber id (`none` for the `key === false` bypass, which returns the raw
transport handle).  `_hasRepositoryHttpReadPendingRequest` tests the key
truthiness before consulting the map. -/
def readEvent (h : String → Nat) (ps : String) (optKey : OptKey)
    (s : RepoState) : RepoState × Option Nat :=
  if optKey = .bool false then
    ({ s with requests := s.requests + 1 }, none)
  else
    let key := effectiveKey h ps optKey
    match (if key.truthy then lookupA key s.registry else none) with
    | some eid => cloneEntry eid s
    | none =>
      let eid := s.nextEntry
      let s' := { s with
        requests := s.requests + 1,
        nextEntry := eid + 1,
        entries := (eid, { key := key, count := 0 }) :: s.entries,
        registry := setA key eid s.registry }
      cloneEntry eid s'

/-- The `abort` listener of a subscriber controller: fires once per controller;
decrements the refcount, aborts the underlying operation exactly when the
count reaches `0` (a no-op on an already-aborted underlying controller), and
resolves the own promise of the subscriber with the aborted envelope (a no-op if
that promise already settled). -/
def abortEvent (sid : Nat) (reason : Option String) (s : RepoState) :
    RepoState :=
  match lookupA sid s.subs with
  | none => s
  | some sub =>
    if sub.ctrlAborted then s
    else
      let entries' := updateA sub.entryRef (fun (ent : Entry) =>
        let count' := ent.count - 1
        { ent with
          count := count',
          opAborted := ent.opAborted || count' == 0,
          opAbortReason :=
            if count' == 0 && !ent.opAborted then reason
            else ent.opAbortReason }) s.entries
      let subs' := updateA sid (fun (sb : Subscriber) =>
        { sb with
          ctrlAborted := true,
          settled := match sb.settled with
            | some o => some o
            | none => some (.env (abortedEnvelope reason)) }) s.subs
      { s with entries := entries', subs := subs' }

/-- Fan-out of the settlement of the shared promise to one subscriber view: a
resolution is forwarded by `resolve(...args)`; a rejection is forwarded only
when the error is an `HTTPError` (the `catch` filter of the clone), and a view
whose promise already settled is unaffected. -/
def applyShared (eid : Nat) (res : SettleResult) (sub : Subscriber) : Subscriber :=
  if sub.entryRef = eid then
    match sub.settled with
    | some _ => sub
    | none =>
      match res with
      | .resolve env => { sub with settled := some (.env env) }
      | .reject e =>
        if e.isHttp then { sub with settled := some (.err e) } else sub
  else sub

/-- The shared `responsePromise` of entry `eid` settling with transport result
`tr`: computes the envelope or rethrow via `readSettle` (reading the signal
captured by the closure), deletes the key of the entry from the registry exactly
once, records the settlement, and fans out to every attached view. -/
def settleEvent (respA : Raw → Except JsError (List Data))
    (metaA : RespHeaders → Except JsError (Option MetaMap))
    (tr : TransportResult) (eid : Nat) (s : RepoState) : RepoState :=
  match lookupA eid s.entries with
  | none => s
  | some ent =>
    if ent.settled.isSome then s
    else
      let res := readSettle respA metaA ent.opAborted ent.opAbortReason tr
      { s with
        registry := removeA ent.key s.registry,
        entries := updateA eid (fun (e : Entry) => { e with settled := some res }) s.entries,
        subs := s.subs.map (fun p => (p.1, applyShared eid res p.2)) }

/-- The dispatch path of `create`: the synchronous phase (`pre`: URL template
rendering and the request adapter applied to the payload) may throw, in which
case no transport request is issued and the exception propagates unchanged;
otherwise exactly one transport request is issued.  The pending-read registry
is never consulted or modified. -/
def createEvent (pre : Except JsError Unit) (s : RepoState) :
    RepoState × Except JsError Unit :=
  match pre with
  | .error e => (s, .error e)
  | .ok _ => ({ s with requests := s.requests + 1 }, .ok ())

/-- The dispatch path of `update` (same shape as `create` with method `put`). -/
def updateEvent (pre : Except JsError Unit) (s : RepoState) :
    RepoState × Except JsError Unit :=
  createEvent pre s

/-- The dispatch path of `remove` (no payload; the synchronous phase is URL
rendering only). -/
def removeEvent (pre : Except JsError Unit) (s : RepoState) :
    RepoState × Except JsError Unit :=
  createEvent pre s

/-! # Association-list lemmas shared by the registry theorems -/

theorem lookupA_updateA_self {κ α : Type} [DecidableEq κ] (k : κ) (f : α → α)
    (l : List (κ × α)) :
    lookupA k (updateA k f l) = (lookupA k l).map f := by
  induction l with
  | nil => rfl
  | cons hd tl ih =>
    obtain ⟨k', v⟩ := hd
    by_cases h : k' = k
    · simp [lookupA, updateA, h]
    · simp [lookupA, updateA, h, ih]

theorem lookupA_updateA_ne {κ α : Type} [DecidableEq κ] {k k' : κ}
    (h : k' ≠ k) (f : α → α) (l : List (κ × α)) :
    lookupA k' (updateA k f l) = lookupA k' l := by
  induction l with
  | nil => rfl
  | cons hd tl ih =>
    obtain ⟨k'', v⟩ := hd
    by_cases h1 : k'' = k
    · subst h1
      have h2 : k'' ≠ k' := fun hk => h (hk ▸ rfl)
      simp [lookupA, updateA, h2]
    · by_cases h2 : k'' = k' <;> simp [lookupA, updateA, h1, h2, h, ih]

theorem lookupA_map_snd {κ α : Type} [DecidableEq κ] (g : α → α) (k : κ)
    (l : List (κ × α)) :
    lookupA k (l.map (fun p => (p.1, g p.2))) = (lookupA k l).map g := by
  induction l with
  | nil => rfl
  | cons hd tl ih =>
    obtain ⟨k', v⟩ := hd
    by_cases h : k' = k <;> simp [lookupA, h, ih]

/-! # Hash theorems (claim C9) -/

theorem imul_lt (a b : Nat) : Hash.imul a b < 2 ^ 32 :=
  Nat.mod_lt _ (by norm_num)

theorem foldl_cyrb53Step_lt (units : List Nat) (h : Nat × Nat)
    (h1 : h.1 < 2 ^ 32) (h2 : h.2 < 2 ^ 32) :
    (units.foldl Hash.cyrb53Step h).1 < 2 ^ 32 ∧
      (units.foldl Hash.cyrb53Step h).2 < 2 ^ 32 := by
  induction units generalizing h with
  | nil => exact ⟨h1, h2⟩
  | cons u us ih =>
    rw [List.foldl_cons]
    exact ih _ (imul_lt _ _) (imul_lt _ _)

theorem cyrb53Units_lt (units : List Nat) (seed : Nat) :
    Hash.cyrb53Units units seed < 2 ^ 53 := by
  dsimp only [Hash.cyrb53Units]
  obtain ⟨hf1, hf2⟩ := foldl_cyrb53Step_lt units
    (0xdeadbeef ^^^ (seed % 2 ^ 32), 0x41c6ce57 ^^^ (seed % 2 ^ 32))
    (Nat.xor_lt_two_pow (by norm_num) (Nat.mod_lt _ (by norm_num)))
    (Nat.xor_lt_two_pow (by norm_num) (Nat.mod_lt _ (by norm_num)))
  set g := units.foldl Hash.cyrb53Step
    (0xdeadbeef ^^^ (seed % 2 ^ 32), 0x41c6ce57 ^^^ (seed % 2 ^ 32)) with hg
  set h1f := Hash.imul (g.1 ^^^ g.1 / 2 ^ 16) 2246822507 ^^^
    Hash.imul (g.2 ^^^ g.2 / 2 ^ 13) 3266489909 with hh1
  set h2f := Hash.imul (g.2 ^^^ g.2 / 2 ^ 16) 2246822507 ^^^
    Hash.imul (h1f ^^^ h1f / 2 ^ 13) 3266489909 with hh2
  have hx : h1f < 2 ^ 32 := by
    rw [hh1]; exact Nat.xor_lt_two_pow (imul_lt _ _) (imul_lt _ _)
  have hm : 2097151 &&& h2f ≤ 2097151 := Nat.and_le_left
  omega

/-- Claim C9 (confirmed): `Hash.cyrb53` is a deterministic pure function: repeated calls with
the same string and seed return the identical value, and the result is always
a nonnegative integer strictly below `2 ^ 53` (the intermediate state is kept
in 32-bit wrap-around arithmetic, see `Hash.imul` and `foldl_cyrb53Step_lt`). -/
theorem cyrb53_deterministic_53bit (s : String) (seed : Nat) :
    Hash.cyrb53 s seed = Hash.cyrb53 s seed ∧ Hash.cyrb53 s seed < 2 ^ 53 :=
  ⟨rfl, cyrb53Units_lt _ _⟩

/-- Regression pin from `test/hash.test.ts`:
`Hash.cyrb53` of the string `test` equals `8713769735217609`. -/
theorem cyrb53_test_pin : Hash.cyrb53 "test" = 8713769735217609 := by decide

/-! # URL builder theorems (claims C4, C6) -/

/-- Claim C4, counterexample: `UrlBuilder.build(":p?", { p: "" })` does *not*
throw: the optional token is silently omitted and the empty value is left to
the query string, so the call returns `p=`. -/
theorem build_optional_empty_string_counterexample :
    UrlBuilder.build [.tok false "p" true] [("p", .str "")] = .ok "p=" := by
  decide

/-- Claim C4, amended: a path parameter bound to an empty or whitespace-only
string is invalid, but for an *optional* token the invalid value makes the
token vanish exactly as a missing value does (nothing is rendered, no error is
thrown, and the parameter is not consumed — it remains in `remainingParams`
and feeds the query string); only a *required* token throws the
empty-string error. -/
theorem optional_empty_string_param_omitted
    (slash : Bool) (name : String) (params : ParamMap) (t : String)
    (hv : params.getJs name = some (.str t)) (ht : trimIsEmpty t = true) :
    UrlBuilder.path [.tok slash name true] params = .ok ("", params) ∧
    UrlBuilder.path [.tok slash name false] params =
      .error ("Path parameter " ++ name ++ " cannot be an empty string.") := by
  have hval : UrlBuilder.validatePathParam params name =
      some ("Path parameter " ++ name ++ " cannot be an empty string.") := by
    simp [UrlBuilder.validatePathParam, hv, UrlBuilder.allowedTypes,
      JSValue.typeofJs, ht]
  constructor <;> simp [UrlBuilder.path, UrlBuilder.pathStep, hval]

/-- Witness for `optional_empty_string_param_omitted` at `name = "p"`,
`t = " "`. -/
theorem optional_empty_string_param_omitted_witness :
    UrlBuilder.path [.tok true "p" true] [("p", .str " ")] =
      .ok ("", [("p", .str " ")]) ∧
    UrlBuilder.path [.tok true "p" false] [("p", .str " ")] =
      .error ("Path parameter " ++ "p" ++ " cannot be an empty string.") :=
  optional_empty_string_param_omitted true "p" [("p", .str " ")] " "
    (by decide) (by decide)

/-! # Default metadata adapter theorems (claim C7) -/

/-- Claim C7, counterexample: with both `Content-Language` and `Accept-Language`
present, the default metadata adapter *overwrites* the map built for
`Content-Language` instead of merging, so the `contentLanguage` entry is
absent from the result. -/
theorem metadata_adapter_drops_content_language :
    defaultMetadataAdapter
      { contentLanguage := some "de", acceptLanguage := some "en",
        xTotalCount := none } = some [("acceptLanguage", "en")] ∧
    lookupA "contentLanguage" [("acceptLanguage", "en")] =
      (none : Option String) := by
  constructor <;> rfl

/-- Claim C7, amended: the default metadata adapter produces `total` from
`X-Total-Count` merged onto at most one language entry: `acceptLanguage` when
`Accept-Language` is present (*replacing* any `contentLanguage` entry), else
`contentLanguage` when `Content-Language` is present; it produces no metadata
map when none of the three headers are present. -/
theorem metadata_adapter_last_language_wins (r : RespHeaders) :
    defaultMetadataAdapter r =
      (let langPart : Option MetaMap :=
        match r.acceptLanguage, r.contentLanguage with
        | some v, _ => some [("acceptLanguage", v)]
        | none, some v => some [("contentLanguage", v)]
        | none, none => none
      match r.xTotalCount with
      | some t => some (langPart.getD [] ++ [("total", t)])
      | none => langPart) := by
  obtain ⟨cl, al, xt⟩ := r
  cases cl <;> cases al <;> cases xt <;> rfl

/-! # Required path-parameter validation (claim C6) -/

theorem exceptBind_ok {ε α β : Type} (a : α) (f : α → Except ε β) :
    (Except.ok a >>= f) = f a := rfl

theorem exceptBind_error {ε α β : Type} (e : ε) (f : α → Except ε β) :
    ((Except.error e : Except ε α) >>= f) = .error e := rfl

theorem exceptPure {ε α : Type} (a : α) : (pure a : Except ε α) = .ok a := rfl

/-- Reduction of `UrlBuilder.build` on a template whose only placeholder is
the required token `:p` (with arbitrary literal text around it): the call
throws exactly the message produced by `validatePathParam`, and otherwise
renders path plus query. -/
theorem build_single_required (pre post : String) (slash : Bool)
    (params : ParamMap) :
    UrlBuilder.build [.lit pre, .tok slash "p" false, .lit post] params =
      match UrlBuilder.validatePathParam (UrlBuilder.cleanParams params) "p" with
      | some m => .error m
      | none =>
        .ok (UrlBuilder.joinParts
          ("" ++ pre ++
            (if slash then
              "/" ++ encodeURIComponentJs
                (((UrlBuilder.cleanParams params).getJs "p").getD .undef).toStringJs
             else
              encodeURIComponentJs
                (((UrlBuilder.cleanParams params).getJs "p").getD .undef).toStringJs)
            ++ post)
          "?" (UrlBuilder.query ((UrlBuilder.cleanParams params).deleteJs "p"))) := by
  rcases hval : UrlBuilder.validatePathParam (UrlBuilder.cleanParams params) "p"
    with _ | msg <;>
    simp [UrlBuilder.build, UrlBuilder.path, UrlBuilder.pathStep, hval,
      List.foldlM_cons, List.foldlM_nil, exceptBind_ok, exceptBind_error,
      exceptPure]

/-- Claim C6 (confirmed): on a template whose only placeholder is the required token `:p`,
`UrlBuilder.build` throws (synchronously — `build` is a pure function of the
template and parameters, with no access to the transport or the pending-read
registry) exactly when `p` is absent from the cleaned parameter map, of a
disallowed type, or an empty/whitespace-only string; the missing-value error
names the parameter, the type error names the parameter, the offending
`typeof` (`object` for arrays, plain objects and `null`; `symbol` for
symbols) and the allowed set `boolean, string, number`, and the empty-string
error names the parameter. -/
theorem build_required_param_validation
    (pre post : String) (slash : Bool) (params : ParamMap) :
    (∀ m, UrlBuilder.build [.lit pre, .tok slash "p" false, .lit post] params
        = .error m ↔
      UrlBuilder.validatePathParam (UrlBuilder.cleanParams params) "p"
        = some m) ∧
    ((UrlBuilder.cleanParams params).getJs "p" = none →
      UrlBuilder.validatePathParam (UrlBuilder.cleanParams params) "p" =
        some ("Missing value for path parameter " ++ "p" ++ ".")) ∧
    (∀ v, (UrlBuilder.cleanParams params).getJs "p" = some v →
      UrlBuilder.allowedTypes.contains v.typeofJs = false →
      UrlBuilder.validatePathParam (UrlBuilder.cleanParams params) "p" =
        some ("Path parameter " ++ "p" ++ " cannot be of type " ++ v.typeofJs
          ++ ". " ++ ("Allowed types are: " ++ "boolean, string, number"
            ++ "."))) ∧
    (∀ t, (UrlBuilder.cleanParams params).getJs "p" = some (.str t) →
      trimIsEmpty t = true →
      UrlBuilder.validatePathParam (UrlBuilder.cleanParams params) "p" =
        some ("Path parameter " ++ "p" ++ " cannot be an empty string.")) ∧
    (∀ v, (UrlBuilder.cleanParams params).getJs "p" = some v →
      UrlBuilder.allowedTypes.contains v.typeofJs = true →
      (∀ t, v = .str t → trimIsEmpty t = false) →
      (UrlBuilder.build [.lit pre, .tok slash "p" false, .lit post]
        params).isOk = true) := by
  refine ⟨?_, ?_, ?_, ?_, ?_⟩
  · intro m
    rw [build_single_required]
    rcases hval : UrlBuilder.validatePathParam
      (UrlBuilder.cleanParams params) "p" with _ | msg <;> simp
  · intro h
    simp [UrlBuilder.validatePathParam, h]
  · intro v hv hty
    cases v <;>
      simp_all [UrlBuilder.validatePathParam, JSValue.typeofJs,
        UrlBuilder.allowedTypes] <;>
      decide
  · intro t hv ht
    simp [UrlBuilder.validatePathParam, hv, JSValue.typeofJs,
      UrlBuilder.allowedTypes, ht]
  · intro v hv hty hstr
    have hval : UrlBuilder.validatePathParam
        (UrlBuilder.cleanParams params) "p" = none := by
      cases v with
      | str t =>
        simp [UrlBuilder.validatePathParam, hv, JSValue.typeofJs,
          UrlBuilder.allowedTypes, hstr t rfl]
      | _ =>
        simp_all [UrlBuilder.validatePathParam, JSValue.typeofJs,
          UrlBuilder.allowedTypes]
    rw [build_single_required, hval]
    rfl

/-- Witness for `build_required_param_validation`: `build(":p", {p: []})`
throws the type error naming `object` and the allowed set. -/
theorem build_required_param_validation_witness :
    UrlBuilder.build [.lit "", .tok false "p" false, .lit ""] [("p", .arr)] =
      .error ("Path parameter " ++ "p" ++ " cannot be of type " ++ "object"
        ++ ". " ++ ("Allowed types are: " ++ "boolean, string, number"
          ++ ".")) :=
  ((build_required_param_validation "" "" false [("p", .arr)]).1 _).mpr
    ((build_required_param_validation "" "" false [("p", .arr)]).2.2.1 .arr
      (by decide) (by decide))

/-! # Mutation frame theorems (claim C8) -/

/-- Claim C8 (confirmed): `create`, `update` and `remove` never consult or
modify the pending-read registry: the fingerprint-to-pending-operation map,
the pending-request closures and the subscriber views are left exactly
unchanged by every such call, the call is never coalesced with any other call
(it creates no subscriber view on any entry), and it issues exactly one
underlying transport request of its own whenever its synchronous phase does
not throw. -/
theorem mutations_never_touch_registry (pre : Except JsError Unit)
    (s : RepoState) :
    ((createEvent pre s).1.registry = s.registry ∧
      (createEvent pre s).1.entries = s.entries ∧
      (createEvent pre s).1.subs = s.subs ∧
      (createEvent pre s).1.requests =
        (if pre.isOk then s.requests + 1 else s.requests)) ∧
    ((updateEvent pre s).1.registry = s.registry ∧
      (updateEvent pre s).1.entries = s.entries ∧
      (updateEvent pre s).1.subs = s.subs ∧
      (updateEvent pre s).1.requests =
        (if pre.isOk then s.requests + 1 else s.requests)) ∧
    ((removeEvent pre s).1.registry = s.registry ∧
      (removeEvent pre s).1.entries = s.entries ∧
      (removeEvent pre s).1.subs = s.subs ∧
      (removeEvent pre s).1.requests =
        (if pre.isOk then s.requests + 1 else s.requests)) := by
  cases pre <;>
    simp [createEvent, updateEvent, removeEvent, Except.isOk, Except.toBool]

/-! # Adapter error propagation (claim C5) -/

/-- Claim C5, counterexample: during `read`, a response-adapter exception
that is not an `HTTPError` is *not* propagated unchanged: it is swallowed and
converted into a resolved aborted envelope, although the very same pipeline
in `create`/`update` rejects with the error unchanged. -/
theorem read_swallows_non_http_adapter_error :
    readSettle (fun _ => .error (.other 7))
      (fun r => .ok (defaultMetadataAdapter r)) false none
      (.success true {} (.ok (.arrRaw [1]))) =
      .resolve (abortedEnvelope none) ∧
    mutationSettle (fun _ => .error (.other 7))
      (fun r => .ok (defaultMetadataAdapter r)) false none
      (.success true {} (.ok (.arrRaw [1]))) = .reject (.other 7) := by
  constructor <;> rfl

/-- Claim C5, amended: any exception thrown by a user-supplied adapter
propagates unchanged to the caller for `create` and `update` (and the
synchronous request-adapter phase of every mutation propagates its exception
unchanged, issuing no request); for `read`, however, only an `HTTPError`
exception propagates — any other adapter exception is converted into a
resolved aborted envelope. -/
theorem adapter_error_propagation
    (respA : Raw → Except JsError (List Data))
    (metaA : RespHeaders → Except JsError (Option MetaMap))
    (sigReason : Option String) (tr : TransportResult) (e : JsError)
    (hthrow : envelopePipeline respA metaA tr = .error e) :
    mutationSettle respA metaA false sigReason tr = .reject e ∧
    readSettle respA metaA false sigReason tr =
      (if e.isHttp then .reject e else .resolve (abortedEnvelope sigReason)) ∧
    (∀ ok hdrs raw, respA raw = .error e →
      envelopePipeline respA metaA (.success ok hdrs (.ok raw)) = .error e) ∧
    (∀ ok hdrs raw ds, respA raw = .ok ds → metaA hdrs = .error e →
      envelopePipeline respA metaA (.success ok hdrs (.ok raw)) = .error e) ∧
    (∀ s, createEvent (.error e) s = (s, .error e) ∧
      updateEvent (.error e) s = (s, .error e) ∧
      removeEvent (.error e) s = (s, .error e)) := by
  refine ⟨?_, ?_, ?_, ?_, ?_⟩
  · simp [mutationSettle, hthrow]
  · simp [readSettle, hthrow]
  · intro ok hdrs raw hr
    simp [envelopePipeline, hr, exceptBind_ok, exceptBind_error]
  · intro ok hdrs raw ds hr hm
    simp [envelopePipeline, hr, hm, exceptBind_ok, exceptBind_error]
  · intro s
    exact ⟨rfl, rfl, rfl⟩

/-- Witness for `adapter_error_propagation` at a concrete non-HTTP adapter
error. -/
theorem adapter_error_propagation_witness :
    mutationSettle (fun _ => .error (.other 7)) (fun _ => .ok none) false none
      (.success true {} (.ok (.arrRaw [1]))) = .reject (.other 7) ∧
    readSettle (fun _ => .error (.other 7)) (fun _ => .ok none) false none
      (.success true {} (.ok (.arrRaw [1]))) =
      .resolve (abortedEnvelope none) :=
  ⟨(adapter_error_propagation (fun _ => .error (.other 7))
      (fun _ => .ok none) none (.success true {} (.ok (.arrRaw [1])))
      (.other 7) rfl).1,
   (adapter_error_propagation (fun _ => .error (.other 7))
      (fun _ => .ok none) none (.success true {} (.ok (.arrRaw [1])))
      (.other 7) rfl).2.1⟩

/-! # Falsy deduplication keys (claim C10) -/

/-- Claim C10, counterexample: a `read` with the explicit key `""` does *not*
always issue a new underlying request: the falsy explicit key is replaced by
the automatic fingerprint before the lookup, so the call *joins* the pending
request stored under that fingerprint (the request count stays at `1` and the
refcount of the pending entry rises to `2`). -/
theorem falsy_explicit_key_joins_counterexample :
    (readEvent (fun _ => 5) "ps" (.str "")
        ((readEvent (fun _ => 5) "ps" .auto .init).1)).1.requests = 1 ∧
    lookupA 0 (readEvent (fun _ => 5) "ps" (.str "")
        ((readEvent (fun _ => 5) "ps" .auto .init).1)).1.entries =
      some { key := .num 5, count := 2 } := by
  constructor <;> rfl

/-- Claim C10, amended: an explicit key of `0`, the empty string, or a
boolean (other than the `false` opt-out) is replaced by the automatic
fingerprint before the lookup, so such keys do not themselves bypass
deduplication; only when the *effective* key — the fingerprint — is the
number `0` does the truthiness-guarded lookup always fail: such a call never
joins an existing pending request, always issues a new underlying request,
and its new registry entry overwrites any existing entry stored under the
key `0`. -/
theorem zero_effective_key_never_joins
    (h : String → Nat) (ps : String) (optKey : OptKey) (s : RepoState)
    (hfalsy : optKey = .auto ∨ optKey = .num 0 ∨ optKey = .str "" ∨
      optKey = .bool true)
    (hzero : h ps = 0) :
    effectiveKey h ps optKey = .num 0 ∧
    (readEvent h ps optKey s).1.requests = s.requests + 1 ∧
    (readEvent h ps optKey s).2 = some s.nextSub ∧
    lookupA (JsKey.num 0) (readEvent h ps optKey s).1.registry =
      some s.nextEntry ∧
    lookupA s.nextEntry (readEvent h ps optKey s).1.entries =
      some { key := .num 0, count := 1 } := by
  have hkey : effectiveKey h ps optKey = .num 0 := by
    rcases hfalsy with rfl | rfl | rfl | rfl <;> simp [effectiveKey, hzero]
  have hnotfalse : ¬ (optKey = .bool false) := by
    rcases hfalsy with rfl | rfl | rfl | rfl <;> simp
  refine ⟨hkey, ?_, ?_, ?_, ?_⟩ <;>
    simp [readEvent, hnotfalse, hkey, JsKey.truthy, cloneEntry, lookupA,
      updateA, setA, removeA]

/-- Witness for `zero_effective_key_never_joins`: with a hash function that
returns `0`, a second identical read does not join the pending first read —
it issues a second request and overwrites the registry mapping for key `0`. -/
theorem zero_effective_key_never_joins_witness :
    effectiveKey (fun _ => 0) "x" OptKey.auto = .num 0 ∧
    (readEvent (fun _ => 0) "x" .auto
        ((readEvent (fun _ => 0) "x" .auto .init).1)).1.requests = 2 ∧
    (readEvent (fun _ => 0) "x" .auto
        ((readEvent (fun _ => 0) "x" .auto .init).1)).2 = some 1 ∧
    lookupA (JsKey.num 0) (readEvent (fun _ => 0) "x" .auto
        ((readEvent (fun _ => 0) "x" .auto .init).1)).1.registry = some 1 ∧
    lookupA 1 (readEvent (fun _ => 0) "x" .auto
        ((readEvent (fun _ => 0) "x" .auto .init).1)).1.entries =
      some { key := .num 0, count := 1 } :=
  zero_effective_key_never_joins (fun _ => 0) "x" .auto
    ((readEvent (fun _ => 0) "x" .auto .init).1) (Or.inl rfl) rfl

/-! # Subscriber abort with reference counting (claim C2) -/

/-- Claim C2 (confirmed): for a pending deduplicated read, calling the
`abort(reason)` of one active subscriber view decrements the reference count
of the entry and resolves only that subscriber promise with
`{ ok: false, aborted: true, abortReason: reason }`; the abort of the
underlying operation is invoked if and only if the decrement brings the count
to `0` (the `opAborted` flag of the updated entry equals
`ent.count - 1 == 0`), and otherwise the shared request is untouched — its
settlement state stays as it was, the registry mapping, the request count and
every other subscriber view are unchanged. -/
theorem subscriber_abort_refcount
    (s : RepoState) (sid eid : Nat) (reason : Option String)
    (ent : Entry) (sub : Subscriber)
    (hent : lookupA eid s.entries = some ent)
    (hsub : lookupA sid s.subs = some sub)
    (href : sub.entryRef = eid)
    (hactive : sub.ctrlAborted = false)
    (hunset : sub.settled = none)
    (hop : ent.opAborted = false) :
    lookupA eid (abortEvent sid reason s).entries = some { ent with
      count := ent.count - 1,
      opAborted := ent.count - 1 == 0,
      opAbortReason := if ent.count - 1 == 0 then reason
        else ent.opAbortReason } ∧
    lookupA sid (abortEvent sid reason s).subs = some { sub with
      ctrlAborted := true,
      settled := some (.env (abortedEnvelope reason)) } ∧
    (∀ sid', sid' ≠ sid →
      lookupA sid' (abortEvent sid reason s).subs = lookupA sid' s.subs) ∧
    (∀ eid', eid' ≠ eid →
      lookupA eid' (abortEvent sid reason s).entries =
        lookupA eid' s.entries) ∧
    (abortEvent sid reason s).registry = s.registry ∧
    (abortEvent sid reason s).requests = s.requests := by
  simp only [abortEvent, hsub, hactive, Bool.false_eq_true, if_false]
  refine ⟨?_, ?_, ?_, ?_, by trivial, by trivial⟩
  · rw [href, lookupA_updateA_self, hent]
    simp [hop]
  · rw [lookupA_updateA_self, hsub]
    simp [hunset]
  · intro sid' hne
    exact lookupA_updateA_ne hne _ _
  · intro eid' hne
    rw [href]
    exact lookupA_updateA_ne hne _ _

/-- Witness for `subscriber_abort_refcount`: on a pending read with two
subscribers, aborting the first drops the refcount to `1`, leaves the
underlying operation unaborted, and resolves only the first view with the
aborted envelope. -/
theorem subscriber_abort_refcount_witness :
    lookupA 0 (abortEvent 0 (some "bye")
        ((readEvent (fun _ => 5) "x" .auto
          ((readEvent (fun _ => 5) "x" .auto .init).1)).1)).entries =
      some { key := .num 5, count := 1, opAborted := false,
             opAbortReason := none, settled := none } ∧
    lookupA 0 (abortEvent 0 (some "bye")
        ((readEvent (fun _ => 5) "x" .auto
          ((readEvent (fun _ => 5) "x" .auto .init).1)).1)).subs =
      some { entryRef := 0, ctrlAborted := true,
             settled := some (.env (abortedEnvelope (some "bye"))) } :=
  ⟨(subscriber_abort_refcount _ 0 0 (some "bye")
      { key := .num 5, count := 2 } { entryRef := 0 }
      (by decide) (by decide) rfl rfl rfl rfl).1,
   (subscriber_abort_refcount _ 0 0 (some "bye")
      { key := .num 5, count := 2 } { entryRef := 0 }
      (by decide) (by decide) rfl rfl rfl rfl).2.1⟩

/-! # Shared failure fan-out (claim C3) -/

/-- Claim C3, counterexample: when the shared request of a pending
deduplicated read fails with a genuine non-abort error that is *not* an
`HTTPError` (a network failure, timeout, or decode error), the error is not
rethrown to the subscribers: the shared promise resolves with an aborted
envelope, and each still-waiting view resolves with that envelope instead of
rejecting with the error — falsifying the claim that every genuine non-abort
error independently rejects each subscriber promise. -/
theorem non_http_failure_not_rethrown_counterexample :
    lookupA 0 (settleEvent defaultResponseAdapter
        (fun r => .ok (defaultMetadataAdapter r)) (.reject (.other 9)) 0
        ((readEvent (fun _ => 5) "y" .auto
          ((readEvent (fun _ => 5) "y" .auto .init).1)).1)).subs =
      some { entryRef := 0, ctrlAborted := false,
             settled := some (.env (abortedEnvelope none)) } ∧
    SubOutcome.env (abortedEnvelope none) ≠ .err (.other 9) := by
  constructor
  · rfl
  · decide

/-- Claim C3, amended: if the shared request of a pending deduplicated read
fails with a genuine (non-abort) error, then every still-attached subscriber
view settles — none is left hanging, and the outcome is not consumed by the
first awaiter — but the delivered outcome depends on the kind of error: an
`HTTPError` is rethrown, so each still-waiting view independently rejects
with that same error; any other non-abort failure is converted into a
resolved aborted envelope that every still-waiting view resolves with.
Already-settled views and views of other entries are untouched in both
cases. -/
theorem shared_failure_fanout
    (respA : Raw → Except JsError (List Data))
    (metaA : RespHeaders → Except JsError (Option MetaMap))
    (e : JsError) (eid : Nat) (s : RepoState) (ent : Entry)
    (hent : lookupA eid s.entries = some ent)
    (hpend : ent.settled = none)
    (hop : ent.opAborted = false) :
    (∀ sid sub, lookupA sid s.subs = some sub → sub.entryRef = eid →
      sub.settled = none →
      lookupA sid (settleEvent respA metaA (.reject e) eid s).subs =
        some { sub with settled := some (if e.isHttp then .err e
          else .env (abortedEnvelope ent.opAbortReason)) }) ∧
    (∀ sid sub, lookupA sid s.subs = some sub →
      sub.entryRef ≠ eid ∨ sub.settled ≠ none →
      lookupA sid (settleEvent respA metaA (.reject e) eid s).subs =
        some sub) ∧
    (∀ sid sub,
      lookupA sid (settleEvent respA metaA (.reject e) eid s).subs =
        some sub →
      sub.entryRef = eid → sub.settled.isSome = true) := by
  have hres : readSettle respA metaA ent.opAborted ent.opAbortReason
      (.reject e) = (if e.isHttp then .reject e
        else .resolve (abortedEnvelope ent.opAbortReason)) := by
    simp [readSettle, envelopePipeline, hop]
  have hsubs : (settleEvent respA metaA (.reject e) eid s).subs =
      s.subs.map (fun p =>
        (p.1, applyShared eid
          (if e.isHttp then .reject e
           else .resolve (abortedEnvelope ent.opAbortReason)) p.2)) := by
    simp [settleEvent, hent, hpend, hres]
  refine ⟨?_, ?_, ?_⟩
  · intro sid sub h1 h2 h3
    rw [hsubs, lookupA_map_snd, h1]
    cases he : e.isHttp <;> simp [he, applyShared, h2, h3]
  · intro sid sub h1 h2
    rw [hsubs, lookupA_map_snd, h1]
    rcases h2 with h2 | h2
    · simp [applyShared, h2]
    · rcases h3 : sub.settled with _ | o
      · exact absurd h3 h2
      · simp [applyShared, h3]
  · intro sid sub h1 h2
    rw [hsubs, lookupA_map_snd] at h1
    rcases h4 : lookupA sid s.subs with _ | old
    · rw [h4] at h1; cases h1
    · rw [h4] at h1
      simp only [Option.map_some', Option.some.injEq] at h1
      subst h1
      by_cases h6 : old.entryRef = eid
      · rcases h5 : old.settled with _ | o
        · cases he : e.isHttp <;> simp [he, applyShared, h6, h5]
        · simp [applyShared, h6, h5]
      · have hid : ∀ R, applyShared eid R old = old := by
          intro R
          simp [applyShared, h6]
        rw [hid] at h2 ⊢
        exact absurd h2 h6

/-- Witness for `shared_failure_fanout`: on a pending read with two
subscribers, an `HTTPError` rejection of the shared request rejects the
second view with that same error. -/
theorem shared_failure_fanout_witness :
    lookupA 1 (settleEvent defaultResponseAdapter
        (fun r => .ok (defaultMetadataAdapter r)) (.reject (.http 3)) 0
        ((readEvent (fun _ => 5) "y" .auto
          ((readEvent (fun _ => 5) "y" .auto .init).1)).1)).subs =
      some { entryRef := 0, ctrlAborted := false,
             settled := some (.err (.http 3)) } :=
  (shared_failure_fanout defaultResponseAdapter
      (fun r => .ok (defaultMetadataAdapter r)) (.http 3) 0
      ((readEvent (fun _ => 5) "y" .auto
        ((readEvent (fun _ => 5) "y" .auto .init).1)).1)
      { key := .num 5, count := 2 }
      (by decide) rfl rfl).1 1 { entryRef := 0 } (by decide) rfl rfl

/-! # Read deduplication fan-in (claim C1) -/

/-- Claim C1, counterexample: on an instance whose hash function returns `0`,
two `read()` calls with identical parameters, no explicit key and nobody
opting out issue *two* underlying transport requests — the falsy fingerprint
defeats the truthiness-guarded pending-request lookup, so the claimed
"exactly one underlying transport request" fails. -/
theorem dedup_two_reads_zero_hash_counterexample :
    (readEvent (fun _ => 0) "ps" .auto
        ((readEvent (fun _ => 0) "ps" .auto .init).1)).1.requests = 2 := by
  rfl

/-- Claim C1, amended: provided the fingerprint of the serialized parameter
map is nonzero, two `read()` calls with identical parameter maps and
automatic deduplication, the second issued while the underlying request of
the first is still pending, produce exactly one underlying transport request
between them, each receives its own subscriber view, and once that single
request settles successfully both views resolve with the same envelope. -/
theorem dedup_two_reads_share_request
    (h : String → Nat) (ps : String) (s₀ : RepoState)
    (respA : Raw → Except JsError (List Data))
    (metaA : RespHeaders → Except JsError (Option MetaMap))
    (tr : TransportResult) (env : Envelope)
    (hnz : h ps ≠ 0)
    (habs : lookupA (JsKey.num (h ps)) s₀.registry = none)
    (hres : readSettle respA metaA false none tr = .resolve env) :
    (readEvent h ps .auto s₀).2 = some s₀.nextSub ∧
    (readEvent h ps .auto (readEvent h ps .auto s₀).1).2 =
      some (s₀.nextSub + 1) ∧
    (readEvent h ps .auto (readEvent h ps .auto s₀).1).1.requests =
      s₀.requests + 1 ∧
    lookupA s₀.nextSub
      (settleEvent respA metaA tr s₀.nextEntry
        (readEvent h ps .auto (readEvent h ps .auto s₀).1).1).subs =
      some { entryRef := s₀.nextEntry, ctrlAborted := false,
             settled := some (.env env) } ∧
    lookupA (s₀.nextSub + 1)
      (settleEvent respA metaA tr s₀.nextEntry
        (readEvent h ps .auto (readEvent h ps .auto s₀).1).1).subs =
      some { entryRef := s₀.nextEntry, ctrlAborted := false,
             settled := some (.env env) } := by
  have hnz' : (h ps : Int) ≠ 0 := by exact_mod_cast hnz
  have htruthy : (JsKey.num (h ps)).truthy = true := by
    simp [JsKey.truthy, hnz']
  have h₁ : readEvent h ps .auto s₀ =
      ({ registry := setA (.num (h ps)) s₀.nextEntry s₀.registry,
         entries := (s₀.nextEntry,
           { key := .num (h ps), count := 1 }) :: s₀.entries,
         subs := (s₀.nextSub, { entryRef := s₀.nextEntry }) :: s₀.subs,
         nextEntry := s₀.nextEntry + 1,
         nextSub := s₀.nextSub + 1,
         requests := s₀.requests + 1 }, some s₀.nextSub) := by
    simp [readEvent, effectiveKey, htruthy, habs, cloneEntry, lookupA, updateA]
  have h₂ : readEvent h ps .auto (readEvent h ps .auto s₀).1 =
      ({ registry := setA (.num (h ps)) s₀.nextEntry s₀.registry,
         entries := (s₀.nextEntry,
           { key := .num (h ps), count := 2 }) :: s₀.entries,
         subs := (s₀.nextSub + 1, { entryRef := s₀.nextEntry }) ::
           (s₀.nextSub, { entryRef := s₀.nextEntry }) :: s₀.subs,
         nextEntry := s₀.nextEntry + 1,
         nextSub := s₀.nextSub + 2,
         requests := s₀.requests + 1 }, some (s₀.nextSub + 1)) := by
    rw [h₁]
    simp [readEvent, effectiveKey, htruthy, cloneEntry, lookupA, updateA,
      setA]
  have h₃ : (settleEvent respA metaA tr s₀.nextEntry
      (readEvent h ps .auto (readEvent h ps .auto s₀).1).1).subs =
      ((readEvent h ps .auto (readEvent h ps .auto s₀).1).1.subs).map
        (fun p => (p.1, applyShared s₀.nextEntry (.resolve env) p.2)) := by
    rw [h₂]
    simp [settleEvent, lookupA, hres]
  refine ⟨by rw [h₁], by rw [h₂], by rw [h₂], ?_, ?_⟩
  · rw [h₃, lookupA_map_snd, h₂]
    have hne : ¬ (s₀.nextSub + 1 = s₀.nextSub) := by omega
    simp [lookupA, hne, applyShared]
  · rw [h₃, lookupA_map_snd, h₂]
    simp [lookupA, applyShared]

/-- Witness for `dedup_two_reads_share_request`: two identical reads from the
initial state share one request and both views resolve with the same decoded
envelope. -/
theorem dedup_two_reads_share_request_witness :
    (readEvent (fun _ => 5) "x" .auto .init).2 = some 0 ∧
    (readEvent (fun _ => 5) "x" .auto
      ((readEvent (fun _ => 5) "x" .auto .init).1)).2 = some 1 ∧
    (readEvent (fun _ => 5) "x" .auto
      ((readEvent (fun _ => 5) "x" .auto .init).1)).1.requests = 1 ∧
    lookupA 0 (settleEvent defaultResponseAdapter
      (fun r => .ok (defaultMetadataAdapter r))
      (.success true {} (.ok (.arrRaw [7, 8]))) 0
      ((readEvent (fun _ => 5) "x" .auto
        ((readEvent (fun _ => 5) "x" .auto .init).1)).1)).subs =
      some { entryRef := 0, ctrlAborted := false,
             settled := some (.env
               { ok := true, data := some [7, 8],
                 item := some 7, metadata := none }) } ∧
    lookupA 1 (settleEvent defaultResponseAdapter
      (fun r => .ok (defaultMetadataAdapter r))
      (.success true {} (.ok (.arrRaw [7, 8]))) 0
      ((readEvent (fun _ => 5) "x" .auto
        ((readEvent (fun _ => 5) "x" .auto .init).1)).1)).subs =
      some { entryRef := 0, ctrlAborted := false,
             settled := some (.env
               { ok := true, data := some [7, 8],
                 item := some 7, metadata := none }) } :=
  dedup_two_reads_share_request (fun _ => 5) "x" .init
    defaultResponseAdapter (fun r => .ok (defaultMetadataAdapter r))
    (.success true {} (.ok (.arrRaw [7, 8])))
    { ok := true, data := some [7, 8], item := some 7, metadata := none }
    (by decide) rfl rfl
